import Mathlib

/-!
Shallow embedding of the Tool Execution and Lifecycle Engine of the
cerberus benchmarking harness: the classes in
app/drivers/tools/AbstractTool.py and
app/drivers/tools/analyze/AbstractAnalyzeTool.py.

External collaborators (the container runtime, host process execution,
the file abstraction) are passed in as explicit capability records, and
side effects are recorded as an explicit event trace in program order.
Python dictionaries with known keys become structures with Option
fields; Python exceptions and fatal exits become Except results;
machine truthiness on the nullable container identifier is made
explicit.
-/

namespace Cerberus

/-- Decides whether the character list pat occurs contiguously inside
the second list, mirroring the Python substring membership test. -/
def subAux (pat : List Char) : List Char → Bool
  | [] => List.isPrefixOf pat []
  | c :: cs => List.isPrefixOf pat (c :: cs) || subAux pat cs

/-- Python substring membership: containsSub hay pat holds when pat
occurs contiguously inside hay. -/
def containsSub (hay pat : String) : Bool :=
  subAux pat.data hay.data

/-- Python truthiness of the nullable container identifier: None and
the empty string are falsy, any other string is truthy. -/
def truthy (o : Option String) : Bool :=
  match o with
  | none => false
  | some s => s != ""

/-- Observable side effects of the engine, recorded in program order. -/
inductive Event where
  | warn (msg : String)
  | info (msg : String)
  | success (msg : String)
  | stopContainer (id : String)
  | startContainer (id : String)
  | containerExec (id : String) (cmd : String) (dir : String)
  | hostExec (cmd : String) (dir : String) (env : List (String × String))
  | appendFile (path : String) (content : String)
  | queryImageExists (repo : String) (tag : String)
  | pullImage (repo : String) (tag : String)
  | getImage (repo : String) (tag : String)
  | whichLookup (name : String)
  | copyFromContainer (id : String) (src : String) (dst : String)
  | copyLocal (src : String) (dst : String)
  deriving DecidableEq

/-- Modelled from the spec: app.core.task.stats.ToolStats is not under
src/. The spec describes the statistics record as the size-side
counters (non-compilable, plausible, candidate-space size,
enumerations, generated), the time-side durations (total validation,
total build) and the timestamps (compilation, validation,
first-plausible), all zero-valued or unset in a freshly constructed
record. -/
structure ToolStats where
  non_compilable : Nat
  plausible_fixes : Nat
  size : Nat
  enumerations : Nat
  generated : Nat
  total_validation : Nat
  total_build : Nat
  timestamp_compilation : Option String
  timestamp_validation : Option String
  timestamp_plausible : Option String
  deriving DecidableEq

/-- The record produced by the ToolStats constructor: every counter at
its zero value, every timestamp unset. -/
def freshToolStats : ToolStats :=
  ⟨0, 0, 0, 0, 0, 0, 0, none, none, none⟩

/-- A Docker image handle; only its identity is consulted by the
engine. -/
structure DockerImage where
  id : String
  deriving DecidableEq

/-- One mode entry of the directory descriptor: the five path keys,
each possibly absent. -/
structure DirEntry where
  experiment : Option String
  logs : Option String
  instrumentation : Option String
  setup : Option String
  artifacts : Option String
  deriving DecidableEq

/-- The raw directory descriptor passed to update_dir_info, keyed by
mode; either key may be absent. -/
structure DirInfo where
  containerEntry : Option DirEntry
  localEntry : Option DirEntry
  deriving DecidableEq

/-- The five resolved working directory paths. -/
structure DirPaths where
  experiment : String
  logs : String
  instrumentation : String
  setup : String
  artifacts : String
  deriving DecidableEq

/-- The mutable attribute state of one AbstractTool instance. -/
structure ToolState where
  name : String
  image_name : Option String
  container_id : Option String
  is_instrument_only : Bool
  dir_expr : String
  dir_logs : String
  dir_inst : String
  dir_setup : String
  dir_output : String
  dir_base_expr : String
  log_output_path : String
  _stats : ToolStats
  deriving DecidableEq

/-- The class-level attribute defaults of AbstractTool. -/
def classDefaults : ToolState :=
  { name := "", image_name := some "", container_id := none,
    is_instrument_only := false, dir_expr := "", dir_logs := "",
    dir_inst := "", dir_setup := "", dir_output := "",
    dir_base_expr := "", log_output_path := "", _stats := freshToolStats }

/-- AbstractTool.__init__: sets the image name from the tool name. -/
def AbstractTool_init (tool_name : String) : ToolState :=
  { classDefaults with image_name := some ("cerberus:" ++ tool_name.toLower) }

/-- AbstractAnalyzeTool.__init__: does not call the base initializer
and assigns no attribute, so every class-level default of AbstractTool
(the empty image name included) is retained. -/
def AbstractAnalyzeTool_init (_tool_name : String) : ToolState :=
  classDefaults

/-- The process-wide state in app.core.values consulted by the
engine. -/
structure GlobalValues where
  use_container : Bool
  rebuild_all : Bool
  dir_experiments : String
  deriving DecidableEq

/-- Capability record for the container runtime (app.core.container),
an external collaborator. -/
structure ContainerAPI where
  exec_command : String → String → String → List (String × String) → Int × Option (List Nat × List Nat)
  image_exists : String → String → Bool
  pull_image : String → String → Option DockerImage
  get_image : String → String → DockerImage

/-- Capability record for host process execution and executable lookup,
external collaborators. -/
structure HostAPI where
  execute_command : String → List (String × String) → String → Int
  which : String → Option String

/-- The warning line emitted by process_status for a non-zero exit
status; the status is rendered into the message. -/
def warningMessage (name : String) (status : Int) : String :=
  "\t\t\t[warning] " ++ name ++ " exited with an error code " ++ toString status

/-- The success line emitted by process_status for exit status zero. -/
def successMessage (name : String) : String :=
  "\t\t\t[success] " ++ name ++ " ended successfully"

/-- AbstractTool.process_status: classify an exit status. Non-zero
emits a warning; status 137 with a truthy container identifier
additionally stops and then starts that container; zero emits a success
line. -/
def process_status (name : String) (container_id : Option String) (status : Int) : List Event :=
  if status ≠ 0 then
    Event.warn (warningMessage name status) ::
      (if status = 137 ∧ truthy container_id = true then
        match container_id with
        | some c => [Event.stopContainer c, Event.startContainer c]
        | none => []
      else [])
  else
    [Event.success (successMessage name)]

/-- Lookup of one key of a directory descriptor entry; a missing key is
the Python KeyError. -/
def keyLookup (o : Option String) (k : String) : Except String String :=
  match o with
  | some v => Except.ok v
  | none => Except.error ("KeyError: " ++ k)

/-- Resolve the five path keys of one mode entry of the descriptor; the
first missing key (the mode key itself included) raises. -/
def resolve_entry (oe : Option DirEntry) (modeKey : String) : Except String DirPaths := do
  let e ← match oe with
    | some e => Except.ok e
    | none => Except.error ("KeyError: " ++ modeKey)
  let de ← keyLookup e.experiment "experiment"
  let dl ← keyLookup e.logs "logs"
  let di ← keyLookup e.instrumentation "instrumentation"
  let ds ← keyLookup e.setup "setup"
  let da ← keyLookup e.artifacts "artifacts"
  Except.ok ⟨de, dl, di, ds, da⟩

/-- AbstractTool.update_dir_info: populate the five working directories
from the mode-matching key of the descriptor and set the base
experiment path, which is the fixed path /experiment in container mode
and the configured experiments directory in local mode. A missing key
surfaces as an error. -/
def update_dir_info (dir_experiments : String) (st : ToolState) (dir_info : DirInfo) :
    Except String ToolState :=
  if truthy st.container_id then
    match resolve_entry dir_info.containerEntry "container" with
    | Except.error e => Except.error e
    | Except.ok p =>
        Except.ok { st with dir_expr := p.experiment, dir_logs := p.logs,
                            dir_inst := p.instrumentation, dir_setup := p.setup,
                            dir_output := p.artifacts, dir_base_expr := "/experiment" }
  else
    match resolve_entry dir_info.localEntry "local" with
    | Except.error e => Except.error e
    | Except.ok p =>
        Except.ok { st with dir_expr := p.experiment, dir_logs := p.logs,
                            dir_inst := p.instrumentation, dir_setup := p.setup,
                            dir_output := p.artifacts, dir_base_expr := dir_experiments }

/-- AbstractTool.update_info: store the container identifier and the
instrument-only flag, resolve the directories, then replace the
statistics record with a freshly constructed one. -/
def update_info (dir_experiments : String) (st : ToolState) (container_id : Option String)
    (instrument_only : Bool) (dir_info : DirInfo) : Except String ToolState :=
  match update_dir_info dir_experiments
      { st with container_id := container_id, is_instrument_only := instrument_only }
      dir_info with
  | Except.error e => Except.error e
  | Except.ok st2 => Except.ok { st2 with _stats := freshToolStats }

/-- Modelled from the spec: app.core.abstractions.append_file is not
under src/. The spec states appends preserve prior file content and add
the new content at the end. -/
def append_file (file_content content : String) : String :=
  file_content ++ content

/-- The iso-8859-1 decoding used on captured container output: every
byte maps to the character with the same code point, so decoding
succeeds on arbitrary byte content. -/
def decode_latin1 (bs : List Nat) : String :=
  String.mk (bs.map Char.ofNat)

/-- Python falsy default of the dir_path argument: None and the empty
string both fall back to the mode default. -/
def resolveDirArg (dir_path : Option String) (dflt : String) : String :=
  match dir_path with
  | none => dflt
  | some d => if d = "" then dflt else d

/-- The local branch of AbstractTool.run_command: extend the command
with append redirection of stdout and stderr into the log file, then
execute it on the host in the directory defaulting to dir_expr. -/
def run_command_host (hapi : HostAPI) (st : ToolState) (command_str log_file_path : String)
    (dir_path : Option String) (env : List (String × String)) : Int × List Event :=
  let d := resolveDirArg dir_path st.dir_expr
  let cmd := command_str ++ " >> " ++ log_file_path ++ " 2>&1"
  (hapi.execute_command cmd env d, [Event.hostExec cmd d env])

/-- AbstractTool.run_command: in container mode dispatch to the
container exec capability (directory defaulting to /experiment) and,
unless the log path contains the substring /dev/null, append the
decoded stdout and then the decoded stderr to the log file; in local
mode run the command on the host with shell append redirection. Returns
the exit code and the event trace. -/
def run_command (capi : ContainerAPI) (hapi : HostAPI) (st : ToolState) (command_str : String)
    (log_file_path : String) (dir_path : Option String) (env : List (String × String)) :
    Int × List Event :=
  match st.container_id with
  | some cid =>
    if cid = "" then
      run_command_host hapi st command_str log_file_path dir_path env
    else
      let d := resolveDirArg dir_path "/experiment"
      let r := capi.exec_command cid command_str d env
      let appendEvents :=
        match r.2 with
        | none => []
        | some (stdout, stderr) =>
          if containsSub log_file_path "/dev/null" then []
          else
            (if stdout ≠ [] then [Event.appendFile log_file_path (decode_latin1 stdout)] else [])
              ++ (if stderr ≠ [] then [Event.appendFile log_file_path (decode_latin1 stderr)] else [])
      (r.1, Event.containerExec cid command_str d :: appendEvents)
  | none =>
    run_command_host hapi st command_str log_file_path dir_path env

/-- Content of the file at path after the appends recorded in the trace
are applied in order; events other than file appends leave files
untouched. -/
def fileAfterAppends (events : List Event) (path : String) (content : String) : String :=
  events.foldl
    (fun acc e =>
      match e with
      | Event.appendFile p c => if p = path then append_file acc c else acc
      | _ => acc)
    content

/-- Modelled from the spec: app.core.utilities.execute_command is not
under src/. The spec states the host shell executes a command line of
the form c followed by append redirection into a file f by running c
and appending its combined stdout and stderr to f, preserving prior
content. -/
def hostShellFile (file_content command_output : String) : String :=
  file_content ++ command_output

/-- Python split of the image name at the colon, unpacked into exactly
a repository and a tag: executed only when a colon is present, it
yields the two parts for exactly one colon and raises (ValueError, too
many values to unpack) for two or more colons; with no colon the
repository is the whole name and the tag defaults to latest. -/
def splitImage (s : String) : Except String (String × String) :=
  if containsSub s ":" then
    if (s.data.filter (fun c => c == ':')).length = 1 then
      Except.ok (String.mk (s.data.takeWhile (fun c => c != ':')),
                 String.mk ((s.data.dropWhile (fun c => c != ':')).drop 1))
    else
      Except.error "ValueError: too many values to unpack"
  else
    Except.ok (s, "latest")

/-- AbstractTool.check_tool_exists: in container mode verify the Docker
image (a fatal exit becomes an error result); in local mode verify that
an executable with the lowercased tool name resolves on the search
path. Returns the possibly updated global values and the trace of
runtime queries. -/
def check_tool_exists (capi : ContainerAPI) (hapi : HostAPI) (st : ToolState)
    (vals : GlobalValues) : Except String GlobalValues × List Event :=
  if vals.use_container then
    match st.image_name with
    | none => (Except.error (st.name ++ " does not provide a Docker Image"), [])
    | some img =>
      match splitImage img with
      | Except.error e => (Except.error e, [])
      | Except.ok (repo_name, tag_name) =>
        if capi.image_exists repo_name tag_name then
          match capi.pull_image repo_name tag_name with
          | some possibly_new =>
            if (capi.get_image repo_name tag_name).id ≠ possibly_new.id then
              (Except.ok { vals with rebuild_all := true },
               [Event.queryImageExists repo_name tag_name,
                Event.info "\t\t(information) docker image found locally",
                Event.getImage repo_name tag_name,
                Event.pullImage repo_name tag_name,
                Event.info "(information) docker image is not the same as the one in the repository. Will have to rebuild"])
            else
              (Except.ok vals,
               [Event.queryImageExists repo_name tag_name,
                Event.info "\t\t(information) docker image found locally",
                Event.getImage repo_name tag_name,
                Event.pullImage repo_name tag_name])
          | none =>
            (Except.ok vals,
             [Event.queryImageExists repo_name tag_name,
              Event.info "\t\t(information) docker image found locally",
              Event.getImage repo_name tag_name,
              Event.pullImage repo_name tag_name])
        else
          match capi.pull_image repo_name tag_name with
          | none =>
            (Except.error (st.name ++ " does not provide a Docker image in Dockerhub"),
             [Event.queryImageExists repo_name tag_name,
              Event.warn "(warning) docker image not found in Docker registry",
              Event.pullImage repo_name tag_name])
          | some _ =>
            (Except.ok vals,
             [Event.queryImageExists repo_name tag_name,
              Event.warn "(warning) docker image not found in Docker registry",
              Event.pullImage repo_name tag_name])
  else
    match hapi.which st.name.toLower with
    | none => (Except.error (st.name ++ " not Found"), [Event.whichLookup st.name.toLower])
    | some _ => (Except.ok vals, [Event.whichLookup st.name.toLower])

/-- Copy operations, as source and destination pairs, contained in the
cp command string built by the local branch of
AbstractTool.save_artifacts: the output directory is always copied to
the results directory; the remaining three copies are guarded by
non-emptiness of the own logs directory, of the artifacts argument and
of the logs argument respectively. -/
def save_artifacts_local_ops (dir_output dir_logs_self dir_results dir_artifacts dir_logs : String) :
    List (String × String) :=
  [(dir_output, dir_results)]
    ++ (if dir_logs_self ≠ "" then [(dir_logs_self, dir_results)] else [])
    ++ (if dir_artifacts ≠ "" then [(dir_output, dir_artifacts)] else [])
    ++ (if dir_logs ≠ "" then [(dir_logs_self, dir_logs)] else [])

/-- AbstractTool.save_artifacts: in container mode copy output and logs
out of the container (results receives both, artifacts receives output,
the logs target receives logs); in local mode issue the guarded cp
operations of save_artifacts_local_ops. -/
def save_artifacts (st : ToolState) (dir_results dir_artifacts dir_logs : String) : List Event :=
  match st.container_id with
  | some cid =>
    if cid = "" then
      (save_artifacts_local_ops st.dir_output st.dir_logs dir_results dir_artifacts dir_logs).map
        (fun op => Event.copyLocal op.1 op.2)
    else
      [Event.copyFromContainer cid st.dir_output dir_results,
       Event.copyFromContainer cid st.dir_logs dir_results,
       Event.copyFromContainer cid st.dir_output dir_artifacts,
       Event.copyFromContainer cid st.dir_logs dir_logs]
  | none =>
    (save_artifacts_local_ops st.dir_output st.dir_logs dir_results dir_artifacts dir_logs).map
      (fun op => Event.copyLocal op.1 op.2)

/-- Whether one mode entry of the descriptor is present with all five
path keys populated. -/
def entry_complete (oe : Option DirEntry) : Bool :=
  match oe with
  | none => false
  | some e =>
    e.experiment.isSome && e.logs.isSome && e.instrumentation.isSome
      && e.setup.isSome && e.artifacts.isSome

/-- Fully populated container entry used in concrete instantiations. -/
def fullEntryC : DirEntry :=
  ⟨some "ce", some "cl", some "ci", some "cs", some "ca"⟩

/-- Fully populated local entry used in concrete instantiations. -/
def fullEntryL : DirEntry :=
  ⟨some "le", some "ll", some "li", some "ls", some "la"⟩

/-- Descriptor with both mode keys fully populated. -/
def dirInfo0 : DirInfo :=
  ⟨some fullEntryC, some fullEntryL⟩

/-- Expected state after resolving dirInfo0 in local mode with the
experiments directory /exp. -/
def stateAfter0 : ToolState :=
  { classDefaults with dir_expr := "le", dir_logs := "ll", dir_inst := "li",
                       dir_setup := "ls", dir_output := "la", dir_base_expr := "/exp" }

/-- Host capability returning exit code 0 and resolving nothing. -/
def hapi0 : HostAPI :=
  ⟨fun _ _ _ => 0, fun _ => none⟩

/-- Container runtime with no local image and failing pulls. -/
def capi0 : ContainerAPI :=
  ⟨fun _ _ _ _ => (0, none), fun _ _ => false, fun _ _ => none, fun _ _ => ⟨""⟩⟩

/-- Container runtime where the image exists locally and the defensive
pull returns an image with a different identity. -/
def capiDiffer : ContainerAPI :=
  ⟨fun _ _ _ _ => (0, none), fun _ _ => true, fun _ _ => some ⟨"newid"⟩, fun _ _ => ⟨"oldid"⟩⟩

/-- Container runtime where the image exists locally and the defensive
pull fails. -/
def capiPullFail : ContainerAPI :=
  ⟨fun _ _ _ _ => (0, none), fun _ _ => true, fun _ _ => none, fun _ _ => ⟨"oldid"⟩⟩

/-- Container runtime whose exec capability returns exit code 5 with
captured stdout bytes 104 105 and stderr byte 33. -/
def capiExec : ContainerAPI :=
  ⟨fun _ _ _ _ => (5, some ([104, 105], [33])), fun _ _ => false, fun _ _ => none, fun _ _ => ⟨""⟩⟩

/-- Global values in container mode with the rebuild flag clear. -/
def vals1 : GlobalValues :=
  ⟨true, false, "/experiments"⟩

/-- Global values in container mode with the rebuild flag already
set. -/
def valsT : GlobalValues :=
  ⟨true, true, "/experiments"⟩

/-- Engine state with a truthy container identifier. -/
def containerState : ToolState :=
  { classDefaults with container_id := some "c7" }

/-- Engine state with a configured image reference, as the base
initializer would produce for the tool name prophet. -/
def prophetState : ToolState :=
  { classDefaults with image_name := some "cerberus:prophet" }

instance (ε α : Type) [DecidableEq ε] [DecidableEq α] : DecidableEq (Except ε α) :=
  fun a b =>
    match a, b with
    | Except.error e1, Except.error e2 =>
      if h : e1 = e2 then isTrue (by rw [h]) else isFalse (fun hc => h (Except.error.inj hc))
    | Except.error _, Except.ok _ => isFalse (fun hc => Except.noConfusion hc)
    | Except.ok _, Except.error _ => isFalse (fun hc => Except.noConfusion hc)
    | Except.ok a1, Except.ok a2 =>
      if h : a1 = a2 then isTrue (by rw [h]) else isFalse (fun hc => h (Except.ok.inj hc))

theorem isPrefixOf_self (l : List Char) : List.isPrefixOf l l = true := by
  induction l with
  | nil => rfl
  | cons c cs ih => simp [List.isPrefixOf, ih]

theorem subAux_append (pat x y : List Char) (h : subAux pat y = true) :
    subAux pat (x ++ y) = true := by
  induction x with
  | nil => simpa using h
  | cons c cs ih =>
    simp only [List.cons_append, subAux, Bool.or_eq_true]
    exact Or.inr ih

theorem subAux_refl (pat : List Char) : subAux pat pat = true := by
  cases pat with
  | nil => rfl
  | cons c cs =>
    simp only [subAux, Bool.or_eq_true]
    exact Or.inl (isPrefixOf_self (c :: cs))

theorem containsSub_appendRight (x y p : String) (h : containsSub y p = true) :
    containsSub (x ++ y) p = true := by
  unfold containsSub at h ⊢
  rw [String.data_append]
  exact subAux_append p.data x.data y.data h

theorem containsSub_self (p : String) : containsSub p p = true :=
  subAux_refl p.data

/-- C1: exit status 137 with a set container identifier yields the
warning (whose message contains the code 137) followed by exactly one
stop and one start of that same container; status 0 yields only the
success line; any other non-zero status, and status 137 without a set
container identifier, yields only the warning line. -/
theorem process_status_C1 :
    (∀ n c, c ≠ "" → process_status n (some c) 137 =
      [Event.warn (warningMessage n 137), Event.stopContainer c, Event.startContainer c])
    ∧ (∀ n, containsSub (warningMessage n 137) "137" = true)
    ∧ (∀ n cid, process_status n cid 0 = [Event.success (successMessage n)])
    ∧ (∀ n cid s, s ≠ 0 → (s = 137 → truthy cid = false) →
        process_status n cid s = [Event.warn (warningMessage n s)]) := by
  refine ⟨?_, ?_, ?_, ?_⟩
  · intro n c hc
    have ht : truthy (some c) = true := by simp [truthy, hc]
    unfold process_status
    rw [if_pos (by decide : (137 : Int) ≠ 0), if_pos ⟨rfl, ht⟩]
  · intro n
    have h137 : containsSub (toString (137 : Int)) "137" = true := by decide
    exact containsSub_appendRight _ _ _ h137
  · intro n cid
    unfold process_status
    rw [if_neg (by decide : ¬ (0 : Int) ≠ 0)]
  · intro n cid s hs h137
    unfold process_status
    rw [if_pos hs, if_neg ?_]
    intro hand
    rw [h137 hand.1] at hand
    exact Bool.false_ne_true hand.2

/-- Concrete instantiation of the C1 theorem. -/
theorem process_status_C1_witness :
    process_status "tool" (some "cid1") 137 =
      [Event.warn (warningMessage "tool" 137), Event.stopContainer "cid1",
       Event.startContainer "cid1"]
    ∧ containsSub (warningMessage "tool" 137) "137" = true
    ∧ process_status "tool" (some "cid1") 0 = [Event.success (successMessage "tool")]
    ∧ process_status "tool" (some "cid1") 1 = [Event.warn (warningMessage "tool" 1)]
    ∧ process_status "tool" none 137 = [Event.warn (warningMessage "tool" 137)] :=
  ⟨process_status_C1.1 "tool" "cid1" (by decide),
   process_status_C1.2.1 "tool",
   process_status_C1.2.2.1 "tool" (some "cid1"),
   process_status_C1.2.2.2 "tool" (some "cid1") 1 (by decide) (fun h => absurd h (by decide)),
   process_status_C1.2.2.2 "tool" none 137 (by decide) (fun _ => rfl)⟩

theorem resolve_entry_full (mk de dl di ds da : String) :
    resolve_entry (some ⟨some de, some dl, some di, some ds, some da⟩) mk
      = Except.ok ⟨de, dl, di, ds, da⟩ :=
  rfl

/-- C2: with both descriptor keys fully populated, update_dir_info sets
the five working directories to exactly the five paths under the key of
the current mode, and sets the base experiment path to /experiment in
container mode and to the configured experiments directory in local
mode. -/
theorem update_dir_info_C2 :
    ∀ dexp st ce cl ci cs ca le ll li ls la,
      (∀ c, st.container_id = some c → c ≠ "" →
        update_dir_info dexp st
            ⟨some ⟨some ce, some cl, some ci, some cs, some ca⟩,
             some ⟨some le, some ll, some li, some ls, some la⟩⟩
          = Except.ok { st with dir_expr := ce, dir_logs := cl, dir_inst := ci,
                                dir_setup := cs, dir_output := ca,
                                dir_base_expr := "/experiment" })
      ∧ (st.container_id = none →
        update_dir_info dexp st
            ⟨some ⟨some ce, some cl, some ci, some cs, some ca⟩,
             some ⟨some le, some ll, some li, some ls, some la⟩⟩
          = Except.ok { st with dir_expr := le, dir_logs := ll, dir_inst := li,
                                dir_setup := ls, dir_output := la,
                                dir_base_expr := dexp }) := by
  intro dexp st ce cl ci cs ca le ll li ls la
  constructor
  · intro c hc hcne
    have ht : truthy st.container_id = true := by rw [hc]; simp [truthy, hcne]
    unfold update_dir_info
    rw [ht, resolve_entry_full]
    rfl
  · intro hc
    have ht : truthy st.container_id = false := by rw [hc]; rfl
    unfold update_dir_info
    rw [ht, resolve_entry_full]
    rfl

/-- Concrete instantiation of the C2 theorem. -/
theorem update_dir_info_C2_witness :
    update_dir_info "/exp" containerState dirInfo0
      = Except.ok { containerState with dir_expr := "ce", dir_logs := "cl", dir_inst := "ci",
                                        dir_setup := "cs", dir_output := "ca",
                                        dir_base_expr := "/experiment" }
    ∧ update_dir_info "/exp" classDefaults dirInfo0 = Except.ok stateAfter0 :=
  ⟨(update_dir_info_C2 "/exp" containerState "ce" "cl" "ci" "cs" "ca"
      "le" "ll" "li" "ls" "la").1 "c7" rfl (by decide),
   (update_dir_info_C2 "/exp" classDefaults "ce" "cl" "ci" "cs" "ca"
      "le" "ll" "li" "ls" "la").2 rfl⟩

theorem update_info_stats_independent (dexp : String) (st : ToolState) (cid : Option String)
    (io : Bool) (di : DirInfo) (s0 : ToolStats) :
    update_info dexp { st with _stats := s0 } cid io di = update_info dexp st cid io di := by
  cases st with
  | mk nm im cid0 io0 a b c d e f g stats =>
    unfold update_info update_dir_info
    by_cases h : truthy cid = true <;>
      cases hr : resolve_entry di.containerEntry "container" <;>
      cases hr2 : resolve_entry di.localEntry "local" <;>
      simp [h, hr, hr2]

/-- C7: every successful update_info call replaces the statistics
record with a freshly constructed one in which every counter is zero
and every timestamp is unset, and the resulting state does not depend
on the previous statistics record. -/
theorem update_info_C7 :
    ∀ dexp st cid io di st',
      update_info dexp st cid io di = Except.ok st' →
      st'._stats = freshToolStats
      ∧ freshToolStats.non_compilable = 0 ∧ freshToolStats.plausible_fixes = 0
      ∧ freshToolStats.size = 0 ∧ freshToolStats.enumerations = 0
      ∧ freshToolStats.generated = 0 ∧ freshToolStats.total_validation = 0
      ∧ freshToolStats.total_build = 0 ∧ freshToolStats.timestamp_compilation = none
      ∧ freshToolStats.timestamp_validation = none
      ∧ freshToolStats.timestamp_plausible = none
      ∧ (∀ s0, update_info dexp { st with _stats := s0 } cid io di = Except.ok st') := by
  intro dexp st cid io di st' h
  refine ⟨?_, rfl, rfl, rfl, rfl, rfl, rfl, rfl, rfl, rfl, rfl, ?_⟩
  · unfold update_info at h
    cases hr : update_dir_info dexp
        { st with container_id := cid, is_instrument_only := io } di with
    | error e => rw [hr] at h; cases h
    | ok st2 => rw [hr] at h; cases h; rfl
  · intro s0
    rw [update_info_stats_independent]
    exact h

/-- Concrete instantiation of the C7 theorem. -/
theorem update_info_C7_witness :
    update_info "/exp" classDefaults none false dirInfo0 = Except.ok stateAfter0
    ∧ stateAfter0._stats = freshToolStats :=
  ⟨rfl, (update_info_C7 "/exp" classDefaults none false dirInfo0 stateAfter0 rfl).1⟩

theorem resolve_entry_incomplete (oe : Option DirEntry) (mk : String)
    (h : entry_complete oe = false) :
    ∃ m, resolve_entry oe mk = Except.error m := by
  match oe with
  | none => exact ⟨"KeyError: " ++ mk, rfl⟩
  | some e =>
    match e with
    | ⟨f1, f2, f3, f4, f5⟩ =>
      cases f1 <;> cases f2 <;> cases f3 <;> cases f4 <;> cases f5 <;>
        first
          | exact ⟨_, rfl⟩
          | (exfalso; simp [entry_complete] at h)

/-- C8: when the descriptor entry required for the active mode is
absent or misses one of its five keys, update_dir_info yields an error
and never an ok state, so no working directory attribute is ever given
a defaulted value. -/
theorem update_dir_info_C8 :
    ∀ dexp st di,
      (truthy st.container_id = true → entry_complete di.containerEntry = false →
        ∃ m, update_dir_info dexp st di = Except.error m)
      ∧ (truthy st.container_id = false → entry_complete di.localEntry = false →
        ∃ m, update_dir_info dexp st di = Except.error m) := by
  intro dexp st di
  constructor
  · intro ht hin
    obtain ⟨m, hm⟩ := resolve_entry_incomplete di.containerEntry "container" hin
    refine ⟨m, ?_⟩
    unfold update_dir_info
    rw [ht, hm]
    rfl
  · intro ht hin
    obtain ⟨m, hm⟩ := resolve_entry_incomplete di.localEntry "local" hin
    refine ⟨m, ?_⟩
    unfold update_dir_info
    rw [ht, hm]
    rfl

/-- Concrete instantiation of the C8 theorem. -/
theorem update_dir_info_C8_witness :
    (∃ m, update_dir_info "/exp" containerState ⟨none, some fullEntryL⟩ = Except.error m)
    ∧ (∃ m, update_dir_info "/exp" classDefaults
        ⟨some fullEntryC, some ⟨some "le", none, some "li", some "ls", some "la"⟩⟩
          = Except.error m) :=
  ⟨(update_dir_info_C8 "/exp" containerState ⟨none, some fullEntryL⟩).1 rfl rfl,
   (update_dir_info_C8 "/exp" classDefaults
      ⟨some fullEntryC, some ⟨some "le", none, some "li", some "ls", some "la"⟩⟩).2 rfl rfl⟩

/-- C5: in local mode, run_command executes exactly the given command
extended with append redirection of stdout and stderr into the log
file, in the directory defaulting to dir_expr, and returns only the
exit code; under the modelled shell append semantics a second identical
run appends a second copy after the first. -/
theorem run_command_C5 :
    ∀ capi hapi st cmd log env,
      st.container_id = none →
      (run_command capi hapi st cmd log none env
        = (hapi.execute_command (cmd ++ " >> " ++ log ++ " 2>&1") env st.dir_expr,
           [Event.hostExec (cmd ++ " >> " ++ log ++ " 2>&1") st.dir_expr env]))
      ∧ (∀ content out, hostShellFile content out = content ++ out)
      ∧ (∀ content out, hostShellFile (hostShellFile content out) out = content ++ out ++ out) := by
  intro capi hapi st cmd log env h
  refine ⟨?_, fun _ _ => rfl, fun _ _ => rfl⟩
  unfold run_command
  rw [h]
  rfl

/-- Concrete instantiation of the C5 theorem. -/
theorem run_command_C5_witness :
    run_command capi0 hapi0 classDefaults "echo hi" "/tmp/out.log" none []
      = (hapi0.execute_command ("echo hi" ++ " >> " ++ "/tmp/out.log" ++ " 2>&1") []
           classDefaults.dir_expr,
         [Event.hostExec ("echo hi" ++ " >> " ++ "/tmp/out.log" ++ " 2>&1")
            classDefaults.dir_expr []])
    ∧ hostShellFile (hostShellFile "prior" "hi") "hi" = "prior" ++ "hi" ++ "hi" :=
  ⟨(run_command_C5 capi0 hapi0 classDefaults "echo hi" "/tmp/out.log" [] rfl).1,
   (run_command_C5 capi0 hapi0 classDefaults "echo hi" "/tmp/out.log" [] rfl).2.2 "prior" "hi"⟩

theorem run_command_container_eq (capi : ContainerAPI) (hapi : HostAPI) (st : ToolState)
    (cid cmd log : String) (d : Option String) (env : List (String × String))
    (hcid : st.container_id = some cid) (hne : cid ≠ "") :
    run_command capi hapi st cmd log d env
      = ((capi.exec_command cid cmd (resolveDirArg d "/experiment") env).1,
         Event.containerExec cid cmd (resolveDirArg d "/experiment") ::
           (match (capi.exec_command cid cmd (resolveDirArg d "/experiment") env).2 with
            | none => []
            | some (stdout, stderr) =>
              if containsSub log "/dev/null" then []
              else
                (if stdout ≠ [] then [Event.appendFile log (decode_latin1 stdout)] else [])
                  ++ (if stderr ≠ [] then [Event.appendFile log (decode_latin1 stderr)] else []))) := by
  unfold run_command
  rw [hcid]
  simp [hne]

theorem decode_latin1_nil : decode_latin1 [] = "" :=
  rfl

theorem fileAfterAppends_run (log c0 cid cmd d : String) (s1 s2 : List Nat) :
    fileAfterAppends (Event.containerExec cid cmd d ::
        ((if s1 ≠ [] then [Event.appendFile log (decode_latin1 s1)] else [])
          ++ (if s2 ≠ [] then [Event.appendFile log (decode_latin1 s2)] else []))) log c0
      = c0 ++ decode_latin1 s1 ++ decode_latin1 s2 := by
  by_cases h1 : s1 = [] <;> by_cases h2 : s2 = [] <;>
    simp [fileAfterAppends, append_file, h1, h2, decode_latin1_nil]

/-- C6: in container mode, a run with the discard sentinel log path
produces no file append at all; the working directory defaults to
/experiment and only the exit code is returned. With a log path not
containing /dev/null, the decoded stdout is appended first and the
decoded stderr second, and the permissive single byte decoding is total
on arbitrary byte content. -/
theorem run_command_C6 :
    ∀ capi hapi st cid cmd env,
      st.container_id = some cid → cid ≠ "" →
      ((run_command capi hapi st cmd "/dev/null" none env).2
          = [Event.containerExec cid cmd "/experiment"]
        ∧ (run_command capi hapi st cmd "/dev/null" none env).1
          = (capi.exec_command cid cmd "/experiment" env).1)
      ∧ (∀ log ec stdout stderr c0,
          containsSub log "/dev/null" = false →
          capi.exec_command cid cmd "/experiment" env = (ec, some (stdout, stderr)) →
          fileAfterAppends (run_command capi hapi st cmd log none env).2 log c0
            = c0 ++ decode_latin1 stdout ++ decode_latin1 stderr)
      ∧ (∀ log ec stdout stderr,
          containsSub log "/dev/null" = false → stdout ≠ [] → stderr ≠ [] →
          capi.exec_command cid cmd "/experiment" env = (ec, some (stdout, stderr)) →
          (run_command capi hapi st cmd log none env).2
            = [Event.containerExec cid cmd "/experiment",
               Event.appendFile log (decode_latin1 stdout),
               Event.appendFile log (decode_latin1 stderr)])
      ∧ (∀ bs, (decode_latin1 bs).length = bs.length) := by
  intro capi hapi st cid cmd env hcid hne
  refine ⟨⟨?_, ?_⟩, ?_, ?_, ?_⟩
  · rw [run_command_container_eq capi hapi st cid cmd "/dev/null" none env hcid hne]
    cases ho : (capi.exec_command cid cmd (resolveDirArg none "/experiment") env).2 with
    | none => simp [resolveDirArg, ho]
    | some p =>
      cases p with
      | mk o1 o2 => simp [resolveDirArg, ho, containsSub_self]
  · rw [run_command_container_eq capi hapi st cid cmd "/dev/null" none env hcid hne]
    rfl
  · intro log ec stdout stderr c0 hlog hexec
    rw [run_command_container_eq capi hapi st cid cmd log none env hcid hne]
    simp only [resolveDirArg]
    rw [hexec]
    simp only [hlog, Bool.false_eq_true, if_false]
    exact fileAfterAppends_run log c0 cid cmd "/experiment" stdout stderr
  · intro log ec stdout stderr hlog h1 h2 hexec
    rw [run_command_container_eq capi hapi st cid cmd log none env hcid hne]
    simp only [resolveDirArg]
    rw [hexec]
    simp [hlog, h1, h2]
  · intro bs
    show (String.mk (bs.map Char.ofNat)).length = bs.length
    simp [String.length]

/-- Concrete instantiation of the C6 theorem. -/
theorem run_command_C6_witness :
    (run_command capiExec hapi0 containerState "ls" "/dev/null" none []).2
      = [Event.containerExec "c7" "ls" "/experiment"]
    ∧ fileAfterAppends
        (run_command capiExec hapi0 containerState "ls" "/log.txt" none []).2 "/log.txt" "pre"
      = "pre" ++ decode_latin1 [104, 105] ++ decode_latin1 [33]
    ∧ (decode_latin1 [104, 105]).length = 2 :=
  ⟨(run_command_C6 capiExec hapi0 containerState "c7" "ls" [] rfl (by decide)).1.1,
   (run_command_C6 capiExec hapi0 containerState "c7" "ls" [] rfl (by decide)).2.1
     "/log.txt" 5 [104, 105] [33] "pre" (by decide) rfl,
   (run_command_C6 capiExec hapi0 containerState "c7" "ls" [] rfl (by decide)).2.2.2 [104, 105]⟩

/-- C10: the discard test in run_command is a substring test: any log
path containing /dev/null anywhere drops the captured output entirely,
exactly as the sentinel itself does, while a path not containing that
substring receives the append of the decoded stdout. -/
theorem run_command_C10 :
    ∀ capi hapi st cid cmd env log d ec stdout stderr,
      st.container_id = some cid → cid ≠ "" →
      capi.exec_command cid cmd (resolveDirArg d "/experiment") env
        = (ec, some (stdout, stderr)) →
      (containsSub log "/dev/null" = true →
        (run_command capi hapi st cmd log d env).2
          = [Event.containerExec cid cmd (resolveDirArg d "/experiment")])
      ∧ (containsSub log "/dev/null" = false → stdout ≠ [] →
        Event.appendFile log (decode_latin1 stdout)
          ∈ (run_command capi hapi st cmd log d env).2)
      ∧ containsSub "/tmp/dev/null-backup.log" "/dev/null" = true := by
  intro capi hapi st cid cmd env log d ec stdout stderr hcid hne hexec
  refine ⟨?_, ?_, by decide⟩
  · intro hsub
    rw [run_command_container_eq capi hapi st cid cmd log d env hcid hne]
    rw [hexec]
    simp [hsub]
  · intro hsub h1
    rw [run_command_container_eq capi hapi st cid cmd log d env hcid hne]
    rw [hexec]
    simp [hsub, h1]

/-- Concrete instantiation of the C10 theorem. -/
theorem run_command_C10_witness :
    (run_command capiExec hapi0 containerState "ls" "/tmp/dev/null-backup.log" none []).2
      = [Event.containerExec "c7" "ls" (resolveDirArg none "/experiment")]
    ∧ Event.appendFile "/out.log" (decode_latin1 [104, 105])
        ∈ (run_command capiExec hapi0 containerState "ls" "/out.log" none []).2 :=
  ⟨(run_command_C10 capiExec hapi0 containerState "c7" "ls" [] "/tmp/dev/null-backup.log"
      none 5 [104, 105] [33] rfl (by decide) rfl).1 (by decide),
   (run_command_C10 capiExec hapi0 containerState "c7" "ls" [] "/out.log"
      none 5 [104, 105] [33] rfl (by decide) rfl).2.1 (by decide) (by decide)⟩

theorem check_tool_exists_ok_cases (capi : ContainerAPI) (hapi : HostAPI) (st : ToolState)
    (vals : GlobalValues) (v : GlobalValues)
    (h : (check_tool_exists capi hapi st vals).1 = Except.ok v) :
    v = vals ∨ v = { vals with rebuild_all := true } := by
  unfold check_tool_exists at h
  by_cases hu : vals.use_container = true
  · cases him : st.image_name with
    | none => simp [hu, him] at h
    | some img =>
      cases hsp : splitImage img with
      | error e => simp [hu, him, hsp] at h
      | ok rt =>
        obtain ⟨repo, tag⟩ := rt
        by_cases hex : capi.image_exists repo tag = true
        · cases hpull : capi.pull_image repo tag with
          | none =>
            simp [hu, him, hsp, hex, hpull] at h
            exact Or.inl h.symm
          | some pn =>
            by_cases hid : (capi.get_image repo tag).id = pn.id
            · simp [hu, him, hsp, hex, hpull, hid] at h
              exact Or.inl h.symm
            · simp [hu, him, hsp, hex, hpull, hid] at h
              refine Or.inr ?_
              rw [← h, hu]
        · cases hpull : capi.pull_image repo tag with
          | none => simp [hu, him, hsp, hex, hpull] at h
          | some pn =>
            simp [hu, him, hsp, hex, hpull] at h
            exact Or.inl h.symm
  · cases hw : hapi.which st.name.toLower with
    | none => simp [hu, hw] at h
    | some p =>
      simp [hu, hw] at h
      exact Or.inl h.symm

/-- C3: when the image exists locally, a successful defensive re-pull
returning a different image identity makes the check succeed with the
rebuild flag set, while a failed re-pull makes the check succeed with
the values unchanged; and no check ever lowers the rebuild flag, so
once true it stays true in every successful result. -/
theorem check_tool_exists_C3 :
    (∀ capi hapi st vals img repo tag newImg,
      vals.use_container = true → st.image_name = some img →
      splitImage img = Except.ok (repo, tag) →
      capi.image_exists repo tag = true →
      capi.pull_image repo tag = some newImg →
      (capi.get_image repo tag).id ≠ newImg.id →
      (check_tool_exists capi hapi st vals).1 = Except.ok { vals with rebuild_all := true })
    ∧ (∀ capi hapi st vals img repo tag,
      vals.use_container = true → st.image_name = some img →
      splitImage img = Except.ok (repo, tag) →
      capi.image_exists repo tag = true →
      capi.pull_image repo tag = none →
      (check_tool_exists capi hapi st vals).1 = Except.ok vals)
    ∧ (∀ capi hapi st vals v,
      vals.rebuild_all = true →
      (check_tool_exists capi hapi st vals).1 = Except.ok v →
      v.rebuild_all = true) := by
  refine ⟨?_, ?_, ?_⟩
  · intro capi hapi st vals img repo tag newImg hu him hsp hex hpull hdiff
    unfold check_tool_exists
    simp [hu, him, hsp, hex, hpull, hdiff]
  · intro capi hapi st vals img repo tag hu him hsp hex hpull
    unfold check_tool_exists
    simp [hu, him, hsp, hex, hpull]
  · intro capi hapi st vals v hreb h
    rcases check_tool_exists_ok_cases capi hapi st vals v h with h1 | h1
    · rw [h1]
      exact hreb
    · rw [h1]

/-- Concrete instantiation of the C3 theorem. -/
theorem check_tool_exists_C3_witness :
    (check_tool_exists capiDiffer hapi0 prophetState vals1).1
      = Except.ok { vals1 with rebuild_all := true }
    ∧ (check_tool_exists capiPullFail hapi0 prophetState vals1).1 = Except.ok vals1
    ∧ valsT.rebuild_all = true :=
  ⟨check_tool_exists_C3.1 capiDiffer hapi0 prophetState vals1
     "cerberus:prophet" "cerberus" "prophet" ⟨"newid"⟩ rfl rfl (by decide) rfl rfl (by decide),
   check_tool_exists_C3.2.1 capiPullFail hapi0 prophetState vals1
     "cerberus:prophet" "cerberus" "prophet" rfl rfl (by decide) rfl rfl,
   check_tool_exists_C3.2.2 capiPullFail hapi0 prophetState valsT valsT rfl rfl⟩

/-- C4 counterexample: an analyze tool engine constructed without
setting an image reference keeps the class default empty string, which
is not Python None, so the provisioning check does not fail with the
configuration error the claim requires and a local-image lookup for
repository empty string and tag latest is attempted. -/
theorem check_tool_exists_C4_counterexample :
    (check_tool_exists capi0 hapi0 (AbstractAnalyzeTool_init "saver") vals1).1
        ≠ Except.error ((AbstractAnalyzeTool_init "saver").name
            ++ " does not provide a Docker Image")
    ∧ Event.queryImageExists "" "latest"
        ∈ (check_tool_exists capi0 hapi0 (AbstractAnalyzeTool_init "saver") vals1).2 := by
  refine ⟨?_, ?_⟩ <;> decide

/-- C4 amended: the fatal no-image configuration error fires only when
the image reference is Python None, in which case no registry or local
lookup is attempted; an analyze tool engine constructed without setting
an image reference retains the class default empty string, so the check
proceeds and its first runtime query is the local lookup of repository
empty string with tag latest. -/
theorem check_tool_exists_C4_amended :
    (∀ capi hapi st vals, vals.use_container = true → st.image_name = none →
      check_tool_exists capi hapi st vals
        = (Except.error (st.name ++ " does not provide a Docker Image"), []))
    ∧ (∀ t, (AbstractAnalyzeTool_init t).image_name = some "")
    ∧ (∀ capi hapi t vals, vals.use_container = true →
      (check_tool_exists capi hapi (AbstractAnalyzeTool_init t) vals).2.head?
        = some (Event.queryImageExists "" "latest")) := by
  refine ⟨?_, fun _ => rfl, ?_⟩
  · intro capi hapi st vals hu him
    unfold check_tool_exists
    simp [hu, him]
  · intro capi hapi t vals hu
    unfold check_tool_exists AbstractAnalyzeTool_init
    have him : classDefaults.image_name = some "" := rfl
    have hsplit : splitImage "" = Except.ok ("", "latest") := rfl
    by_cases hex : capi.image_exists "" "latest" = true
    · cases hpull : capi.pull_image "" "latest" with
      | none => simp [hu, him, hsplit, hex, hpull]
      | some pn =>
        by_cases hid : (capi.get_image "" "latest").id = pn.id <;>
          simp [hu, him, hsplit, hex, hpull, hid]
    · cases hpull : capi.pull_image "" "latest" with
      | none => simp [hu, him, hsplit, hex, hpull]
      | some pn => simp [hu, him, hsplit, hex, hpull]

/-- Concrete instantiation of the hypotheses of the C4 amended
theorem. -/
theorem check_tool_exists_C4_witness :
    check_tool_exists capi0 hapi0 { classDefaults with image_name := none, name := "T" } vals1
      = (Except.error ("T" ++ " does not provide a Docker Image"), [])
    ∧ (AbstractAnalyzeTool_init "saver").image_name = some ""
    ∧ (check_tool_exists capiDiffer hapi0 (AbstractAnalyzeTool_init "saver") vals1).2.head?
      = some (Event.queryImageExists "" "latest") :=
  ⟨check_tool_exists_C4_amended.1 capi0 hapi0
     { classDefaults with image_name := none, name := "T" } vals1 rfl rfl,
   check_tool_exists_C4_amended.2.1 "saver",
   check_tool_exists_C4_amended.2.2 capiDiffer hapi0 "saver" vals1 rfl⟩

/-- C9 counterexample: the results target is not guarded, so a call
with an empty results argument still issues a copy operation whose
destination is that empty argument, refuting that every target argument
left empty is skipped. -/
theorem save_artifacts_C9_counterexample :
    Event.copyLocal "/out" ""
      ∈ save_artifacts { classDefaults with dir_output := "/out", dir_logs := "/logs" }
          "" "/art" "/lg" := by
  decide

/-- C9 amended: in local mode an empty logs argument yields zero copy
operations targeting the logs directory and an empty artifacts argument
yields none targeting artifacts, while each non-empty target receives
its copies (results always receives the output, plus the logs when the
own logs directory is non-empty; artifacts receives the output; the
logs target receives the logs); the output-to-results copy alone is
unguarded and is issued even for an empty results argument. -/
theorem save_artifacts_C9_amended :
    ∀ st dr da dl, st.container_id = none →
      (save_artifacts st dr da dl
        = (save_artifacts_local_ops st.dir_output st.dir_logs dr da dl).map
            (fun op => Event.copyLocal op.1 op.2))
      ∧ (dl = "" → save_artifacts_local_ops st.dir_output st.dir_logs dr da dl
          = [(st.dir_output, dr)]
            ++ (if st.dir_logs ≠ "" then [(st.dir_logs, dr)] else [])
            ++ (if da ≠ "" then [(st.dir_output, da)] else []))
      ∧ (da = "" → save_artifacts_local_ops st.dir_output st.dir_logs dr da dl
          = [(st.dir_output, dr)]
            ++ (if st.dir_logs ≠ "" then [(st.dir_logs, dr)] else [])
            ++ (if dl ≠ "" then [(st.dir_logs, dl)] else []))
      ∧ ((st.dir_output, dr) ∈ save_artifacts_local_ops st.dir_output st.dir_logs dr da dl)
      ∧ (st.dir_logs ≠ "" →
          (st.dir_logs, dr) ∈ save_artifacts_local_ops st.dir_output st.dir_logs dr da dl)
      ∧ (da ≠ "" →
          (st.dir_output, da) ∈ save_artifacts_local_ops st.dir_output st.dir_logs dr da dl)
      ∧ (dl ≠ "" →
          (st.dir_logs, dl) ∈ save_artifacts_local_ops st.dir_output st.dir_logs dr da dl) := by
  intro st dr da dl hc
  refine ⟨?_, ?_, ?_, ?_, ?_, ?_, ?_⟩
  · unfold save_artifacts
    rw [hc]
  · intro h
    simp [save_artifacts_local_ops, h]
  · intro h
    simp [save_artifacts_local_ops, h]
  · simp [save_artifacts_local_ops]
  · intro h
    simp [save_artifacts_local_ops, h]
  · intro h
    simp [save_artifacts_local_ops, h]
  · intro h
    simp [save_artifacts_local_ops, h]

/-- Concrete instantiation of the C9 amended theorem. -/
theorem save_artifacts_C9_witness :
    save_artifacts { classDefaults with dir_output := "/out", dir_logs := "/logs" }
        "/res" "/art" ""
      = (save_artifacts_local_ops "/out" "/logs" "/res" "/art" "").map
          (fun op => Event.copyLocal op.1 op.2)
    ∧ save_artifacts_local_ops "/out" "/logs" "/res" "/art" ""
      = [("/out", "/res")] ++ [("/logs", "/res")] ++ [("/out", "/art")]
    ∧ ("/logs", "/lg") ∈ save_artifacts_local_ops "/out" "/logs" "/res" "/art" "/lg" :=
  ⟨(save_artifacts_C9_amended
      { classDefaults with dir_output := "/out", dir_logs := "/logs" } "/res" "/art" "" rfl).1,
   by
     have h := (save_artifacts_C9_amended
       { classDefaults with dir_output := "/out", dir_logs := "/logs" } "/res" "/art" "" rfl).2.1 rfl
     simpa using h,
   (save_artifacts_C9_amended
      { classDefaults with dir_output := "/out", dir_logs := "/logs" } "/res" "/art" "/lg"
      rfl).2.2.2.2.2.2 (by decide)⟩

end Cerberus
